import Mathlib

set_option maxRecDepth 8000

namespace FtMbt

/-- JavaScript strings are modeled as lists of characters. -/
abbrev JStr := List Char

/-- Coerce a Lean string literal into the JavaScript-string model. -/
def str (s : String) : JStr := s.data

/-- `String.prototype.indexOf(pat, start)`: smallest index `i ≥ start` at which
`pat` occurs in `s`, or `-1` when there is none. -/
def jsIndexOfFrom (s pat : JStr) (start : Nat) : Int :=
  match (List.range (s.length + 1)).find?
      (fun i => decide (start ≤ i) && pat.isPrefixOf (s.drop i)) with
  | some i => (i : Int)
  | none => -1

/-- `String.prototype.indexOf(fromIndex 0)`. -/
def jsIndexOf (s pat : JStr) : Int := jsIndexOfFrom s pat 0

/-- `String.prototype.substring(a, b)`: clamps both indices to the string length
and swaps them when `a > b`. -/
def jsSubstring (s : JStr) (a b : Nat) : JStr :=
  let a' := min a s.length
  let b' := min b s.length
  (s.take (max a' b')).drop (min a' b')

/-- ASCII whitespace relevant to `String.prototype.trim`. -/
def isJsWs (c : Char) : Bool :=
  c = ' ' || c = '\t' || c = '\n' || c = '\r' || c = '\x0b' || c = '\x0c'

/-- `String.prototype.trim`. -/
def jsTrim (s : JStr) : JStr :=
  ((s.dropWhile isJsWs).reverse.dropWhile isJsWs).reverse

/-- `String.prototype.split(c)` for a one-character separator: `"".split(c)`
is `[""]`, and separators at either end produce empty fields. -/
def splitOnChar (c : Char) : JStr → List JStr
  | [] => [[]]
  | x :: xs =>
    match splitOnChar c xs with
    | [] => [[]]
    | y :: ys => if x = c then [] :: y :: ys else (x :: y) :: ys

/-- `Array.prototype.join(sep)`. -/
def joinSep (sep : JStr) : List JStr → JStr
  | [] => []
  | [l] => l
  | l :: ls => l ++ sep ++ joinSep sep ls

/-- One atomic script unit of an MBT test (`MbtScriptData` in `MbtTestData`). -/
structure MbtScriptData where
  unitId : Int
  testPath : JStr
  basicScript : JStr
deriving DecidableEq

/-- A `{path, name}` recovery-scenario pair (`RecoveryScenarioData` in `TestResources`). -/
structure RecoveryScenarioData where
  path : JStr
  name : JStr
deriving DecidableEq

/-- The resources extracted from one test descriptor (`TestResources`). -/
structure TestResources where
  functionLibraries : List JStr
  recoveryScenarioData : List RecoveryScenarioData
deriving DecidableEq

/-- The part of a parsed `Test.tsp` descriptor document that
`extractTestResources` reads: the `textContent` of every `FuncLib` element
(`none` models a DOM null), and the first `RecoveryScenarios` element when
present, with its own nullable `textContent`. -/
structure TspDoc where
  funcLibTexts : List (Option JStr)
  recoveryText : Option (Option JStr)

/-- Events emitted through the logger, as far as the claims observe them. -/
inductive LogEvent where
  | tspParseError (testPath : JStr)
  | runResultsMissing (runId : Int)
deriving DecidableEq

/-- The ambient effects `MbtPreTestExecuter` performs: `isTestFolder`
(existence of `Test.tsp` or `<name>.st` inside the folder) and
`getGuiTestDocument` (loading and XML-parsing a descriptor file; `none`
models both a parse failure and a thrown load error). -/
structure MbtEnv where
  isTestFolder : JStr → Bool
  getGuiTestDocument : JStr → Option TspDoc

/-- One step of the `rsParts.forEach` loop in `extractTestResources`:
split the candidate on `|`; push `{path: testPath + "/" + parts[0],
name: parts[1]}` when at least two fields result, otherwise keep `acc`. -/
def rsStep (testPath : JStr) (acc : List RecoveryScenarioData) (rsPart : JStr) :
    List RecoveryScenarioData :=
  match splitOnChar '|' rsPart with
  | f0 :: f1 :: _ => acc ++ [⟨testPath ++ str "/" ++ f0, f1⟩]
  | _ => acc

/-- The `RecoveryScenarios` mini-format reader inside `extractTestResources`:
split the element text on `*` and fold `rsStep` over the candidates. -/
def parseRecoveryEntries (testPath text : JStr) : List RecoveryScenarioData :=
  (splitOnChar '*' text).foldl (rsStep testPath) []

/-- `MbtPreTestExecuter.extractTestResources`: load the descriptor at
`testPath + "\Test.tsp"`; on failure, log and return empty resources (the
`catch` block); otherwise collect `FuncLib` texts (non-null, non-empty only)
joined onto the test path, and parse the first `RecoveryScenarios` text. -/
def extractTestResources (env : MbtEnv) (testPath : JStr) :
    TestResources × List LogEvent :=
  match env.getGuiTestDocument (testPath ++ str "\\Test.tsp") with
  | none => (⟨[], []⟩, [.tspParseError testPath])
  | some doc =>
    let fls := doc.funcLibTexts.foldl
      (fun acc fl? =>
        match fl? with
        | some fl => if fl ≠ [] then acc ++ [testPath ++ str "/" ++ fl] else acc
        | none => acc) []
    let rss := match doc.recoveryText with
      | some textContent? =>
        match textContent? with
        | some text => parseRecoveryEntries testPath text
        | none => []
      | none => []
    (⟨fls, rss⟩, [])

/-- The `"path|name|1|1*"` token (quoted) built for one recovery scenario in
`updateTestScriptResources`. -/
def scenarioToken (rs : RecoveryScenarioData) : JStr :=
  str "\"" ++ rs.path ++ str "|" ++ rs.name ++ str "|1|1*\""

/-- The resource-directive text `updateTestScriptResources` prepends for one
resolved `TestResources`: a `RestartFLEngine` plus one `LoadFunctionLibrary`
line per library when libraries exist, then a single `LoadRecoveryScenario`
directive with comma-joined scenario tokens when scenarios exist. -/
def resourceDirectives (res : TestResources) : JStr :=
  (if res.functionLibraries ≠ [] then
    str "RestartFLEngine\r\n" ++
      res.functionLibraries.foldl
        (fun acc fl => acc ++ str " LoadFunctionLibrary \"" ++ fl ++ str "\"\r\n") []
  else []) ++
  (if res.recoveryScenarioData ≠ [] then
    str "LoadRecoveryScenario " ++
      joinSep (str ",") (res.recoveryScenarioData.map scenarioToken)
  else [])

/-- The injection condition of `updateTestScriptResources`, literally:
`index === 0 || (scriptData[index - 1] && unit.testPath !== scriptData[index].testPath)`.
Note the source compares against `scriptData[index]`, which is `unit` itself
(the out-of-bounds arm is unreachable during iteration). -/
def mbtInjectCond (scriptData : List MbtScriptData) (index : Nat)
    (unit : MbtScriptData) : Bool :=
  index == 0 ||
    ((scriptData.get? (index - 1)).isSome &&
      match scriptData.get? index with
      | some u => decide (unit.testPath ≠ u.testPath)
      | none => false)

/-- One iteration of the `for (const unit of scriptData)` loop in
`updateTestScriptResources`: when the injection condition holds, demand a
recognizable test folder (else throw), resolve resources and prepend their
directives; always append the unit's own `basicScript`. -/
def buildUnitScript (env : MbtEnv) (scriptData : List MbtScriptData)
    (index : Nat) (unit : MbtScriptData) : Except JStr JStr :=
  if mbtInjectCond scriptData index unit then
    if env.isTestFolder unit.testPath then
      .ok (resourceDirectives (extractTestResources env unit.testPath).1 ++
        unit.basicScript)
    else
      .error (str "updateTestScriptResources: invalid test path")
  else
    .ok unit.basicScript

/-- `MbtPreTestExecuter.updateTestScriptResources`: build one script line per
unit and join them with the engine's CRLF line terminator. -/
def updateTestScriptResources (env : MbtEnv) (scriptData : List MbtScriptData) :
    Except JStr JStr := do
  let lines ← scriptData.enum.mapM (fun iu => buildUnitScript env scriptData iu.1 iu.2)
  .ok (joinSep (str "\r\n") lines)

/-- One logical MBT test as submitted to `createMbtPropsFile`
(`MbtTestInfo` in `MbtTestData`). -/
structure MbtTestInfo where
  testName : JStr
  executionId : JStr
  scriptData : List MbtScriptData
  unitIds : List JStr
  underlyingTests : List JStr
  encodedIterationsStr : JStr

/-- Decimal rendering of a 1-based property index. -/
def natToJStr (n : Nat) : JStr := str (toString n)

/-- `Array.prototype.join(';')` used for `unitIds` and `underlyingTests`. -/
def joinSemi (xs : List JStr) : JStr := joinSep (str ";") xs

/-- The per-test property group `createMbtPropsFile` assigns for the test at
1-based index `idx`: `test`, `package` (synthetic `_idx`), `script` (compiled
by `updateTestScriptResources`), `unitIds`, `underlyingTests`,
`datableParams`. -/
def mbtTestProps (env : MbtEnv) (idx : Nat) (ti : MbtTestInfo) :
    Except JStr (List (JStr × JStr)) := do
  let script ← updateTestScriptResources env ti.scriptData
  .ok [
    (str "test" ++ natToJStr idx, ti.testName),
    (str "package" ++ natToJStr idx, str "_" ++ natToJStr idx),
    (str "script" ++ natToJStr idx, script),
    (str "unitIds" ++ natToJStr idx, joinSemi ti.unitIds),
    (str "underlyingTests" ++ natToJStr idx, joinSemi ti.underlyingTests),
    (str "datableParams" ++ natToJStr idx, ti.encodedIterationsStr)]

/-- The full property mapping built by `createMbtPropsFile`: the four fixed
keys followed by one group per test. The source fills a JS object from
concurrently awaited callbacks; its key order for several tests depends on
scheduling, so the groups are modeled in index order (the single-test order
is exact). Path separators are modeled as `/`. -/
def mbtProps (env : MbtEnv) (workDir : JStr) (testInfos : List MbtTestInfo) :
    Except JStr (List (JStr × JStr)) := do
  let groups ← testInfos.enum.mapM (fun iti => mbtTestProps env (iti.1 + 1) iti.2)
  .ok ([
    (str "runType", str "MBT"),
    (str "resultsFilename", str "must be here"),
    (str "parentFolder", workDir ++ str "/___mbt"),
    (str "repoFolder", workDir)] ++ groups.flatten)

/-- The text `createMbtPropsFile` writes:
`Object.entries(props).map(([k, v]) => k + '=' + v).join('\n')` — note the
values are written verbatim, with no escaping. -/
def propsFileContent (props : List (JStr × JStr)) : JStr :=
  joinSep (str "\n") (props.map (fun kv => kv.1 ++ str "=" ++ kv.2))

/-- Re-parsing one `key=value` line: the key is the text before the first
`=`, the value everything after it. -/
def parsePropLine (l : JStr) : JStr × JStr :=
  (l.takeWhile (fun c => c ≠ '='), (l.dropWhile (fun c => c ≠ '=')).drop 1)

/-- Re-parsing a written properties file as `key=value` lines. -/
def parsePropsLines (content : JStr) : List (JStr × JStr) :=
  (splitOnChar '\n' content).map parsePropLine

/-- The observable outcome of `createMbtPropsFile`: the returned path and the
list of `(path, content)` file writes performed. -/
structure BuildOutput where
  path : JStr
  fileWrites : List (JStr × JStr)
deriving DecidableEq

/-- `MbtPreTestExecuter.createMbtPropsFile`: an empty test list short-circuits
to an empty path before any file-system access; otherwise compile every test's
property group and write the serialized mapping to
`workDir + "/mbt_props_" + timestamp + ".txt"`. -/
def createMbtPropsFile (env : MbtEnv) (workDir timestamp : JStr)
    (testInfos : List MbtTestInfo) : Except JStr BuildOutput :=
  if testInfos.length = 0 then .ok ⟨[], []⟩
  else do
    let props ← mbtProps env workDir testInfos
    let full := workDir ++ str "/mbt_props_" ++ timestamp ++ str ".txt"
    .ok ⟨full, [(full, propsFileContent props)]⟩

/-- One raw test case as reported by the engine (`CaseResult`). Absent
optional strings are the empty string, which is exactly what the source's
truthiness tests observe; `duration || 0` is folded into the field. -/
structure CaseResult where
  testName : JStr
  duration : Int
  skipped : Bool
  errorStackTrace : JStr
  errorDetails : JStr
  stdout : JStr
  runId : Int
deriving DecidableEq

/-- The `{stackTraceStr, errorType, errorMsg}` record attached to a failed
normalized result. -/
structure TestError where
  stackTraceStr : JStr
  errorType : JStr
  errorMsg : JStr
deriving DecidableEq

/-- The normalized per-case record (`JUnitTestResult`). -/
structure JUnitTestResult where
  moduleName : JStr
  packageName : JStr
  className : JStr
  testName : JStr
  status : JStr
  testDuration : Int
  buildStarted : Int
  testError : Option TestError
  externalURL : JStr
  description : JStr
  resultData : List JStr
  runId : Option Int
  externalAssets : JStr
deriving DecidableEq

/-- The ambient effect of the correlator: `getMBTData` loads step data from a
run-results file path (`none` models a null/undefined return, which the source
replaces with `[]`). Step entries are opaque to the claims and modeled as
strings. -/
structure IterEnv where
  getMBTData : JStr → Option (List JStr)

/-- The mutable fields of `JUnitXmlIterator`, including its constructor
arguments, the accumulated name-keyed result map, and the log. -/
structure IterState where
  buildStarted : Int
  runResultsFilesMap : List (Int × JStr)
  testNameToJunitResultMap : List (JStr × JUnitTestResult)
  moduleName : JStr
  packageName : JStr
  className : JStr
  testName : JStr
  testDuration : Int
  status : JStr
  stackTraceStr : JStr
  errorType : JStr
  errorMsg : JStr
  externalURL : JStr
  description : JStr
  resultData : List JStr
  runId : Option Int
  externalAssets : JStr
  log : List LogEvent

/-- The iterator's state right after construction: every string field is the
empty string, `status` is `'Passed'`, step data is empty, `runId` is null. -/
def initIterState (buildStarted : Int) (m : List (Int × JStr)) : IterState :=
  { buildStarted := buildStarted, runResultsFilesMap := m,
    testNameToJunitResultMap := [], moduleName := [], packageName := [],
    className := [], testName := [], testDuration := 0,
    status := str "Passed", stackTraceStr := [], errorType := [],
    errorMsg := [], externalURL := [], description := [], resultData := [],
    runId := none, externalAssets := [], log := [] }

/-- `Map.prototype.get`/`has` over the run-results file map. -/
def findRun (m : List (Int × JStr)) (k : Int) : Option JStr :=
  match m with
  | [] => none
  | kv :: r => if kv.1 = k then some kv.2 else findRun r k

/-- `Map.prototype.set`: replace in place when the key exists, else append. -/
def setAssoc (m : List (JStr × JUnitTestResult)) (k : JStr)
    (v : JUnitTestResult) : List (JStr × JUnitTestResult) :=
  match m with
  | [] => [(k, v)]
  | kv :: r => if kv.1 = k then (k, v) :: r else kv :: setAssoc r k v

/-- `JUnitXmlIterator.extractValueFromStdout`: the start marker must occur at
a strictly positive index; the end marker is searched from the start index and
must be found at a strictly positive index; the JS `substring` between the end
of the start marker and the end index is trimmed; otherwise the default. -/
def extractValueFromStdout (stdoutValue startString endString defaultValue : JStr) :
    JStr :=
  let startIndex := jsIndexOf stdoutValue startString
  if startIndex > 0 then
    let endIndex := jsIndexOfFrom stdoutValue endString startIndex.toNat
    if endIndex > 0 then
      jsTrim (jsSubstring stdoutValue (startIndex.toNat + startString.length)
        endIndex.toNat)
    else defaultValue
  else defaultValue

/-- `JUnitXmlIterator.processTestCase`, step for step: reset module, class and
package names; take the case's name and duration; set status from the skipped
flag, overridden to `'Failed'` when either error text is truthy, in which case
the stack trace and message fields are overwritten and the error type is
derived from the first `"at "` in the stack trace, falling back to the first
`":"` in the details (otherwise left as it was); look up the run-results file
and load step data, or log when the run id is unmapped (leaving the previous
step data in place); scrape description and external URL from stdout when
stdout is truthy (otherwise leaving the previous values); build the result
with a non-null error record whenever the current stack-trace or message field
is non-empty; store it in the name-keyed map. Returns the new state together
with the stored result. -/
def processTestCase (env : IterEnv) (s : IterState) (tc : CaseResult) :
    IterState × JUnitTestResult :=
  let status :=
    if tc.errorStackTrace ≠ ([] : JStr) ∨ tc.errorDetails ≠ ([] : JStr) then
      str "Failed"
    else if tc.skipped then str "Skipped" else str "Passed"
  let stackTraceStr :=
    if tc.errorStackTrace ≠ ([] : JStr) ∨ tc.errorDetails ≠ ([] : JStr) then
      tc.errorStackTrace
    else s.stackTraceStr
  let errorMsg :=
    if tc.errorStackTrace ≠ ([] : JStr) ∨ tc.errorDetails ≠ ([] : JStr) then
      tc.errorDetails
    else s.errorMsg
  let errorType :=
    if tc.errorStackTrace ≠ ([] : JStr) ∨ tc.errorDetails ≠ ([] : JStr) then
      let idx := jsIndexOf tc.errorStackTrace (str "at ")
      if idx ≥ 0 then jsSubstring tc.errorStackTrace 0 idx.toNat
      else
        let idx2 := jsIndexOf tc.errorDetails (str ":")
        if idx2 ≥ 0 then jsSubstring tc.errorDetails 0 idx2.toNat
        else s.errorType
    else s.errorType
  let resultData :=
    match findRun s.runResultsFilesMap tc.runId with
    | some p => (env.getMBTData p).getD []
    | none => s.resultData
  let log :=
    match findRun s.runResultsFilesMap tc.runId with
    | some _ => s.log
    | none => s.log ++ [LogEvent.runResultsMissing tc.runId]
  let description :=
    if tc.stdout ≠ ([] : JStr) then
      extractValueFromStdout tc.stdout (str "__octane_description_start__")
        (str "__octane_description_end__") []
    else s.description
  let externalURL :=
    if tc.stdout ≠ ([] : JStr) then
      extractValueFromStdout tc.stdout (str "__octane_external_url_start__")
        (str "__octane_external_url_end__") []
    else s.externalURL
  let testError :=
    if stackTraceStr ≠ ([] : JStr) ∨ errorMsg ≠ ([] : JStr) then
      some (⟨stackTraceStr, errorType, errorMsg⟩ : TestError)
    else none
  let result : JUnitTestResult :=
    ⟨[], [], [], tc.testName, status, tc.duration, s.buildStarted, testError,
     externalURL, description, resultData, some tc.runId, s.externalAssets⟩
  ({ s with moduleName := [], packageName := [], className := [],
            testName := tc.testName, testDuration := tc.duration,
            status := status, stackTraceStr := stackTraceStr,
            errorType := errorType, errorMsg := errorMsg,
            externalURL := externalURL, description := description,
            resultData := resultData, runId := some tc.runId, log := log,
            testNameToJunitResultMap :=
              setAssoc s.testNameToJunitResultMap tc.testName result },
   result)

/-- The per-suite case loop of `processXmlResult`, flattened: fold
`processTestCase` over the cases in order. -/
def processCases (env : IterEnv) (s : IterState) (cases : List CaseResult) :
    IterState :=
  cases.foldl (fun st c => (processTestCase env st c).1) s

/-- The error-type derivation rule with the frame-marker token the source
actually uses, `"at "` (no leading space): the text before its first
occurrence in the stack trace, else the text before the first `":"` in the
details, else empty. Stated for comparison with `processTestCase`. -/
def specErrorType (stackTrace details : JStr) : JStr :=
  let i := jsIndexOf stackTrace (str "at ")
  if i ≥ 0 then jsSubstring stackTrace 0 i.toNat
  else
    let j := jsIndexOf details (str ":")
    if j ≥ 0 then jsSubstring details 0 j.toNat
    else []

/-- The marker-extraction rule read off the claim's words: the substring
strictly between the start marker (which must begin at a strictly positive
index) and the first end marker found at or after it, trimmed; empty when the
end marker is missing or begins before the start marker has ended. -/
def specExtract (stdoutValue startString endString : JStr) : JStr :=
  let i := jsIndexOf stdoutValue startString
  if i > 0 then
    let j := jsIndexOfFrom stdoutValue endString i.toNat
    if 0 < j ∧ i.toNat + startString.length ≤ j.toNat then
      jsTrim ((stdoutValue.take j.toNat).drop (i.toNat + startString.length))
    else []
  else []

/-- A descriptor document declaring one function library, `lib2`. -/
def mbtDoc2 : TspDoc := ⟨[some (str "lib2")], none⟩

/-- Environment for the script-compiler run: every path is a test folder,
`/t2` has a function library, `/t1` has no resources. -/
def mbtEnvC1 : MbtEnv :=
  ⟨fun _ => true,
   fun p => if p = str "/t2\\Test.tsp" then some mbtDoc2 else some ⟨[], none⟩⟩

/-- First script unit, owned by test path `/t1`. -/
def unitA : MbtScriptData := ⟨1, str "/t1", str "A"⟩

/-- Second script unit, owned by the different test path `/t2`. -/
def unitB : MbtScriptData := ⟨2, str "/t2", str "B"⟩

/-- Environment whose descriptor documents never load. -/
def mbtEnvNone : MbtEnv := ⟨fun _ => false, fun _ => none⟩

/-- Environment with empty descriptor documents everywhere. -/
def mbtEnvTrivial : MbtEnv := ⟨fun _ => true, fun _ => some ⟨[], none⟩⟩

/-- A test whose two script units share the test path `/t1`, so its compiled
script is the two fragments joined with CRLF. -/
def tiC3 : MbtTestInfo :=
  ⟨str "T", str "e", [⟨1, str "/t1", str "A"⟩, ⟨2, str "/t1", str "B"⟩],
   [str "7"], [], str ""⟩

/-- The property mapping `createMbtPropsFile` builds for `tiC3`: note the
`script1` value contains a CRLF line break. -/
def propsC3 : List (JStr × JStr) := [
  (str "runType", str "MBT"), (str "resultsFilename", str "must be here"),
  (str "parentFolder", str "/w/___mbt"), (str "repoFolder", str "/w"),
  (str "test1", str "T"), (str "package1", str "_1"),
  (str "script1", str "A\r\nB"), (str "unitIds1", str "7"),
  (str "underlyingTests1", str ""), (str "datableParams1", str "")]

/-- Correlator environment in which no run-results file yields step data. -/
def envIterNone : IterEnv := ⟨fun _ => none⟩

/-- Failed case carrying the claim's example stack trace. -/
def tcC4 : CaseResult :=
  ⟨str "t", 0, false, str "TypeError: x is undefined\n at foo.js:12", str "",
   str "", 5⟩

/-- Failed case with only error details, no stack trace. -/
def tcC4b : CaseResult :=
  ⟨str "t", 0, false, str "", str "AssertionError: expected true", str "", 5⟩

/-- Case explicitly marked skipped that also carries error details. -/
def tcC5 : CaseResult := ⟨str "t", 0, true, str "", str "boom", str "", 1⟩

/-- Stdout in which the claim's description markers surround ` hello world `. -/
def stdoutC6 : JStr :=
  str "Z__octane_description_start__ hello world __octane_description_end__"

/-- Correlator environment serving step data `["s1"]` for the file `f1`. -/
def envIterC7 : IterEnv := ⟨fun p => if p = str "f1" then some [str "s1"] else none⟩

/-- Clean case whose run id 1 is mapped to the file `f1`. -/
def tcC7a : CaseResult := ⟨str "a", 0, false, str "", str "", str "", 1⟩

/-- Clean case whose run id 2 is absent from the run-results map. -/
def tcC7b : CaseResult := ⟨str "b", 0, false, str "", str "", str "", 2⟩

/-- Failed case with a stack trace, marker-bearing stdout and mapped run id;
used as the predecessor in the staleness scenario. -/
def tcC10a : CaseResult :=
  ⟨str "a", 0, false, str "E\n at x", str "",
   str "Z__octane_description_start__ D __octane_description_end__", 1⟩

/-- Claim C9: for an empty `TestDefinition` list the descriptor-file builder
returns an empty path and performs no file write. -/
theorem c9_empty_testinfos_no_write (env : MbtEnv) (workDir timestamp : JStr) :
    createMbtPropsFile env workDir timestamp [] = .ok ⟨[], []⟩ := rfl

/-- Claim C2: resource resolution never raises — it is a total function — and
when the descriptor document fails to load it logs the parse error and returns
a `ResourceSet` with empty function-library and recovery-scenario lists. -/
theorem c2_extract_resources_parse_failure_empty (env : MbtEnv) (tp : JStr)
    (h : env.getGuiTestDocument (tp ++ str "\\Test.tsp") = none) :
    extractTestResources env tp = (⟨[], []⟩, [LogEvent.tspParseError tp]) := by
  unfold extractTestResources
  rw [h]

/-- Witness for C2 at a concrete environment whose documents never load. -/
theorem c2_witness :
    extractTestResources mbtEnvNone (str "/t") =
      (⟨[], []⟩, [LogEvent.tspParseError (str "/t")]) :=
  c2_extract_resources_parse_failure_empty mbtEnvNone (str "/t") rfl

/-- Claim C1 (failing evaluation): in a two-unit sequence whose second unit
owns a different test path with a non-empty resource set, the compiled script
contains no resource directive for the second unit — the source compares the
unit's test path against itself, so injection happens only at index 0. -/
theorem c1_injection_skipped_for_changed_path :
    updateTestScriptResources mbtEnvC1 [unitA, unitB] = .ok (str "A\r\nB")
  ∧ (extractTestResources mbtEnvC1 (str "/t2")).1 =
      ⟨[str "/t2/lib2"], []⟩ := ⟨rfl, rfl⟩

/-- Counterexample to C3: the builder's property mapping for `tiC3` has a
`script1` value containing a CRLF, and re-parsing the written text as
`key=value` lines does not reproduce the mapping — no escaping is applied. -/
theorem c3_roundtrip_counterexample :
    mbtProps mbtEnvTrivial (str "/w") [tiC3] = .ok propsC3
  ∧ parsePropsLines (propsFileContent propsC3) ≠ propsC3 := by
  refine ⟨rfl, ?_⟩
  decide

/-- Counterexample to C4: on the claim's own example stack trace the derived
error type is `"TypeError: x is undefined\n "` — the source searches for
`"at "` without the leading space — and not the claimed
`"TypeError: x is undefined\n"`. -/
theorem c4_error_type_counterexample :
    ((processTestCase envIterNone (initIterState 0 []) tcC4).2.testError.map
        TestError.errorType) = some (str "TypeError: x is undefined\n ")
  ∧ some (str "TypeError: x is undefined\n ") ≠
      some (str "TypeError: x is undefined\n") := by
  refine ⟨rfl, ?_⟩
  decide

/-- Counterexample to C5: a case marked skipped that carries error details is
normalized with status `Failed`, not `Skipped` — the failure override runs
after the skipped assignment. -/
theorem c5_status_counterexample :
    (processTestCase envIterNone (initIterState 0 []) tcC5).2.status = str "Failed"
  ∧ str "Failed" ≠ str "Skipped" := by
  refine ⟨rfl, ?_⟩
  decide

/-- Counterexample to C6: with stdout `"xab"`, start marker `"ab"` and end
marker `"b"`, the end marker is found inside the start marker's span; the
source's JS `substring` swaps the inverted bounds and returns `"b"`, while the
claim's reading — empty when no end marker follows the start marker — gives
the empty string. -/
theorem c6_extract_counterexample :
    extractValueFromStdout (str "xab") (str "ab") (str "b") [] = str "b"
  ∧ specExtract (str "xab") (str "ab") (str "b") = ([] : JStr)
  ∧ str "b" ≠ ([] : JStr) := by
  refine ⟨rfl, rfl, ?_⟩
  decide

/-- Counterexample to C7: run id 2 is absent from the run-results map, yet the
second case is processed with the first case's step data `["s1"]` — the field
is not reset to the empty sequence. -/
theorem c7_step_data_counterexample :
    findRun [(1, str "f1")] 2 = none
  ∧ (processTestCase envIterC7
      (processTestCase envIterC7 (initIterState 0 [(1, str "f1")]) tcC7a).1
      tcC7b).2.resultData = [str "s1"]
  ∧ [str "s1"] ≠ ([] : List JStr) := by
  refine ⟨rfl, rfl, ?_⟩
  decide

/-- Folding `rsStep` over candidate entries appends exactly one scenario per
candidate with at least two `|`-separated fields, built from fields 0 and 1,
in input order. -/
theorem rsStep_foldl (tp : JStr) (parts : List JStr)
    (acc : List RecoveryScenarioData) :
    parts.foldl (rsStep tp) acc =
      acc ++ ((parts.filter
          (fun p => decide (1 < (splitOnChar '|' p).length))).map
        (fun p => (⟨tp ++ str "/" ++ (splitOnChar '|' p).headD [],
          (splitOnChar '|' p).getD 1 []⟩ : RecoveryScenarioData))) := by
  induction parts generalizing acc with
  | nil => simp
  | cons p ps ih =>
    simp only [List.foldl_cons, List.filter_cons]
    rw [ih]
    cases h : splitOnChar '|' p with
    | nil => simp [rsStep, h]
    | cons f0 rest =>
      cases rest with
      | nil => simp [rsStep, h]
      | cons f1 r2 =>
        simp [rsStep, h, List.append_assoc]

/-- Claim C8: the recovery-scenario mini-format resolver keeps exactly the
`*`-separated candidates with at least two `|`-separated fields, in order,
producing `{path: testPath/field0, name: field1}` pairs; mapping the
scenario-token builder over the result therefore emits no token for any
dropped candidate. -/
theorem c8_recovery_entries_filter_map (tp text : JStr) :
    parseRecoveryEntries tp text =
      ((splitOnChar '*' text).filter
          (fun p => decide (1 < (splitOnChar '|' p).length))).map
        (fun p => (⟨tp ++ str "/" ++ (splitOnChar '|' p).headD [],
          (splitOnChar '|' p).getD 1 []⟩ : RecoveryScenarioData))
  ∧ (parseRecoveryEntries tp text).map scenarioToken =
      ((splitOnChar '*' text).filter
          (fun p => decide (1 < (splitOnChar '|' p).length))).map
        (fun p => scenarioToken ⟨tp ++ str "/" ++ (splitOnChar '|' p).headD [],
          (splitOnChar '|' p).getD 1 []⟩) := by
  have h : parseRecoveryEntries tp text =
      ((splitOnChar '*' text).filter
          (fun p => decide (1 < (splitOnChar '|' p).length))).map
        (fun p => (⟨tp ++ str "/" ++ (splitOnChar '|' p).headD [],
          (splitOnChar '|' p).getD 1 []⟩ : RecoveryScenarioData)) := by
    unfold parseRecoveryEntries
    rw [rsStep_foldl]
    simp
  refine ⟨h, ?_⟩
  rw [h, List.map_map]
  rfl

/-- Splitting never yields the empty list of fields. -/
theorem splitOnChar_ne_nil (c : Char) (l : JStr) : splitOnChar c l ≠ [] := by
  cases l with
  | nil => simp [splitOnChar]
  | cons x xs =>
    unfold splitOnChar
    cases splitOnChar c xs with
    | nil => simp
    | cons y ys =>
      by_cases h : x = c <;> simp [h]

/-- Splitting a string that begins with the separator yields a leading empty
field. -/
theorem splitOnChar_cons_eq (c : Char) (xs : JStr) :
    splitOnChar c (c :: xs) = [] :: splitOnChar c xs := by
  cases hs : splitOnChar c xs with
  | nil => exact absurd hs (splitOnChar_ne_nil c xs)
  | cons y ys =>
    simp only [splitOnChar, hs]
    simp

/-- A non-separator head character is prepended to the first field. -/
theorem splitOnChar_cons_ne (c x : Char) (xs : JStr) (hx : ¬ x = c)
    (y : JStr) (ys : List JStr) (hs : splitOnChar c xs = y :: ys) :
    splitOnChar c (x :: xs) = (x :: y) :: ys := by
  simp only [splitOnChar, hs]
  simp [hx]

/-- A string free of the separator splits into itself alone. -/
theorem splitOnChar_eq_single (c : Char) (l : JStr) (h : c ∉ l) :
    splitOnChar c l = [l] := by
  induction l with
  | nil => rfl
  | cons x xs ih =>
    simp only [List.mem_cons, not_or] at h
    have hx : ¬ x = c := fun hxc => h.1 hxc.symm
    rw [splitOnChar_cons_ne c x xs hx xs [] (ih h.2)]

/-- Splitting after a separator-free prefix peels that prefix off as the first
field. -/
theorem splitOnChar_append (c : Char) (l rest : JStr) (h : c ∉ l) :
    splitOnChar c (l ++ c :: rest) = l :: splitOnChar c rest := by
  induction l with
  | nil => simpa using splitOnChar_cons_eq c rest
  | cons x xs ih =>
    simp only [List.mem_cons, not_or] at h
    have hx : ¬ x = c := fun hxc => h.1 hxc.symm
    simp only [List.cons_append]
    rw [splitOnChar_cons_ne c x (xs ++ c :: rest) hx xs (splitOnChar c rest)
      (ih h.2)]

/-- Re-parsing one serialized `key=value` line recovers the pair, provided the
key contains no `=`. -/
theorem parsePropLine_append (k v : JStr) (hk : '=' ∉ k) :
    parsePropLine (k ++ '=' :: v) = (k, v) := by
  induction k with
  | nil => simp [parsePropLine]
  | cons a as ih =>
    simp only [List.mem_cons, not_or] at hk
    have ha : a ≠ '=' := fun hac => hk.1 hac.symm
    have ih' := ih hk.2
    have hpa : decide (a ≠ '=') = true := by simp [ha]
    simp only [parsePropLine, List.cons_append] at ih' ⊢
    simp only [List.takeWhile_cons, List.dropWhile_cons, hpa, if_true]
    simp only [Prod.mk.injEq] at ih' ⊢
    exact ⟨by rw [ih'.1], ih'.2⟩

/-- Claim C3, amended: the MBT builder serializes property values verbatim —
no escaping is applied — so re-parsing the written text as `key=value` lines
reproduces the mapping exactly when it is non-empty, no key contains `=` or a
line terminator, and no value contains a line terminator. -/
theorem c3_roundtrip_without_line_terminators (props : List (JStr × JStr))
    (hne : props ≠ [])
    (h : ∀ kv ∈ props, '\n' ∉ kv.1 ∧ '=' ∉ kv.1 ∧ '\n' ∉ kv.2) :
    parsePropsLines (propsFileContent props) = props := by
  induction props with
  | nil => exact absurd rfl hne
  | cons kv rest ih =>
    obtain ⟨h1, h2, h3⟩ := h kv (List.mem_cons_self kv rest)
    have hline : '\n' ∉ kv.1 ++ '=' :: kv.2 := by
      intro hm
      rcases List.mem_append.mp hm with hm1 | hm2
      · exact h1 hm1
      · rcases List.mem_cons.mp hm2 with hm3 | hm4
        · exact absurd hm3 (by decide)
        · exact h3 hm4
    have he : str "=" = ['='] := rfl
    cases rest with
    | nil =>
      have hc : propsFileContent [kv] = kv.1 ++ '=' :: kv.2 := by
        simp [propsFileContent, joinSep, he]
      unfold parsePropsLines
      rw [hc, splitOnChar_eq_single '\n' _ hline]
      simp [parsePropLine_append kv.1 kv.2 h2]
    | cons kv2 rest2 =>
      have hn : str "\n" = ['\n'] := rfl
      have hc : propsFileContent (kv :: kv2 :: rest2) =
          (kv.1 ++ '=' :: kv.2) ++ '\n' :: propsFileContent (kv2 :: rest2) := by
        simp [propsFileContent, joinSep, he, hn]
      unfold parsePropsLines at ih ⊢
      rw [hc, splitOnChar_append '\n' _ _ hline]
      rw [List.map_cons, parsePropLine_append kv.1 kv.2 h2]
      rw [ih (List.cons_ne_nil kv2 rest2)
        (fun x hx => h x (List.mem_cons_of_mem kv hx))]

/-- Witness for the amended C3 at a concrete one-entry mapping. -/
theorem c3_witness :
    parsePropsLines (propsFileContent [(str "a", str "b")]) =
      [(str "a", str "b")] :=
  c3_roundtrip_without_line_terminators [(str "a", str "b")] (by decide)
    (by decide)

/-- Claim C5, amended: the normalized status is `Failed` whenever an error
stack trace or error detail text is present — even for a case explicitly
marked skipped — else `Skipped` when marked skipped, else `Passed`. -/
theorem c5_status_amended (env : IterEnv) (s : IterState) (tc : CaseResult) :
    (processTestCase env s tc).2.status =
      if tc.errorStackTrace ≠ ([] : JStr) ∨ tc.errorDetails ≠ ([] : JStr) then
        str "Failed"
      else if tc.skipped then str "Skipped" else str "Passed" := rfl

/-- Claim C4, amended: for a failed case processed by a fresh correlator, the
error type attached to the result is the stack-trace text strictly before the
first occurrence of `"at "` — the token carries no leading space — falling
back to the detail text before its first `:`, and empty when neither pattern
matches. -/
theorem c4_error_type_amended (env : IterEnv) (b : Int)
    (m : List (Int × JStr)) (tc : CaseResult)
    (h : tc.errorStackTrace ≠ ([] : JStr) ∨ tc.errorDetails ≠ ([] : JStr)) :
    (processTestCase env (initIterState b m) tc).2.testError =
      some ⟨tc.errorStackTrace,
        specErrorType tc.errorStackTrace tc.errorDetails, tc.errorDetails⟩ := by
  unfold processTestCase specErrorType initIterState
  dsimp only
  rw [if_pos h, if_pos h, if_pos h, if_pos h]

/-- Witness for the amended C4 at the claim's details-only example. -/
theorem c4_witness :
    (processTestCase envIterNone (initIterState 0 []) tcC4b).2.testError =
      some ⟨str "", str "AssertionError", str "AssertionError: expected true"⟩ := by
  have h := c4_error_type_amended envIterNone 0 [] tcC4b (Or.inr (by decide))
  rw [h]
  rfl

/-- A found match index never exceeds the string length. -/
theorem jsIndexOfFrom_le_length (s pat : JStr) (st : Nat)
    (h : 0 < jsIndexOfFrom s pat st) :
    (jsIndexOfFrom s pat st).toNat ≤ s.length := by
  unfold jsIndexOfFrom at h ⊢
  cases hf : (List.range (s.length + 1)).find?
      (fun i => decide (st ≤ i) && pat.isPrefixOf (s.drop i)) with
  | none => rw [hf] at h; exact absurd h (by decide)
  | some i =>
    have hmem : i ∈ List.range (s.length + 1) := List.mem_of_find?_eq_some hf
    have hlt : i < s.length + 1 := List.mem_range.mp hmem
    simpa using Nat.lt_succ_iff.mp hlt

/-- Claim C6, amended: marker extraction behaves exactly as the claim states
whenever the first end-marker occurrence at or after the start index does not
begin before the start marker has ended; in that overlapping corner the JS
`substring` swaps its inverted bounds instead of yielding the empty string. -/
theorem c6_extract_amended (stdoutValue startString endString : JStr)
    (h : 0 < jsIndexOf stdoutValue startString →
      0 < jsIndexOfFrom stdoutValue endString
        (jsIndexOf stdoutValue startString).toNat →
      (jsIndexOf stdoutValue startString).toNat + startString.length ≤
        (jsIndexOfFrom stdoutValue endString
          (jsIndexOf stdoutValue startString).toNat).toNat) :
    extractValueFromStdout stdoutValue startString endString [] =
      specExtract stdoutValue startString endString := by
  unfold extractValueFromStdout specExtract
  dsimp only
  by_cases h1 : jsIndexOf stdoutValue startString > 0
  · rw [if_pos h1, if_pos h1]
    by_cases h2 : jsIndexOfFrom stdoutValue endString
        (jsIndexOf stdoutValue startString).toNat > 0
    · have h3 := h h1 h2
      rw [if_pos h2, if_pos (⟨h2, h3⟩ : _ ∧ _)]
      have hble := jsIndexOfFrom_le_length stdoutValue endString
        (jsIndexOf stdoutValue startString).toNat h2
      congr 1
      unfold jsSubstring
      dsimp only
      rw [min_eq_left (le_trans h3 hble), min_eq_left hble,
        Nat.max_eq_right h3, Nat.min_eq_left h3]
    · rw [if_neg h2, if_neg (fun hc => h2 hc.1)]
  · rw [if_neg h1, if_neg h1]

/-- Witness for the amended C6 at the claim's description example. -/
theorem c6_witness :
    extractValueFromStdout stdoutC6 (str "__octane_description_start__")
      (str "__octane_description_end__") [] = str "hello world" := by
  have h := c6_extract_amended stdoutC6 (str "__octane_description_start__")
    (str "__octane_description_end__") (by decide)
  rw [h]
  rfl

/-- Claim C7, amended: a case whose run identifier is absent from the mapping
never aborts correlation — a warning is logged and the case's result is still
built and stored — but its step data is whatever the previous case left in
the correlator (the initial empty sequence only when nothing was loaded
before), not a freshly reset empty sequence. -/
theorem c7_missing_run_id_amended (env : IterEnv) (s : IterState)
    (tc : CaseResult) (h : findRun s.runResultsFilesMap tc.runId = none) :
    (processTestCase env s tc).2.resultData = s.resultData
  ∧ (processTestCase env s tc).1.log =
      s.log ++ [LogEvent.runResultsMissing tc.runId]
  ∧ (processTestCase env s tc).1.testNameToJunitResultMap =
      setAssoc s.testNameToJunitResultMap tc.testName
        (processTestCase env s tc).2 := by
  unfold processTestCase
  dsimp only
  rw [h]
  exact ⟨rfl, rfl, rfl⟩

/-- Witness for the amended C7: on a fresh correlator the unmapped case does
get empty step data. -/
theorem c7_witness :
    (processTestCase envIterC7 (initIterState 0 []) tcC7b).2.resultData =
      ([] : List JStr) :=
  ((c7_missing_run_id_amended envIterC7 (initIterState 0 []) tcC7b rfl).1).trans
    rfl

/-- A case with no error text, no stdout, an unmapped run id and no skipped
flag produces a `Passed` result whose error record, external URL, description
and step data are taken untouched from the correlator's current state. -/
theorem processTestCase_clean (env : IterEnv) (s : IterState) (tc : CaseResult)
    (hs : tc.errorStackTrace = ([] : JStr)) (hd : tc.errorDetails = ([] : JStr))
    (ho : tc.stdout = ([] : JStr)) (hk : tc.skipped = false)
    (hr : findRun s.runResultsFilesMap tc.runId = none) :
    (processTestCase env s tc).2 =
      ⟨[], [], [], tc.testName, str "Passed", tc.duration, s.buildStarted,
       (if s.stackTraceStr ≠ ([] : JStr) ∨ s.errorMsg ≠ ([] : JStr) then
          some ⟨s.stackTraceStr, s.errorType, s.errorMsg⟩ else none),
       s.externalURL, s.description, s.resultData, some tc.runId,
       s.externalAssets⟩ := by
  have hne : ¬ (tc.errorStackTrace ≠ ([] : JStr) ∨
      tc.errorDetails ≠ ([] : JStr)) := by
    simp [hs, hd]
  have hno : ¬ (tc.stdout ≠ ([] : JStr)) := by simp [ho]
  unfold processTestCase
  dsimp only
  rw [hr, if_neg hne, if_neg hne, if_neg hne, if_neg hne, hk]
  rw [if_neg hno, if_neg hno]
  simp

/-- Claim C10: the correlator's working fields are not all reset between
cases — a clean, unskipped case with no stdout and an unmapped run id that
follows an error-bearing case is normalized as `Passed` yet carries the
previous case's non-null error record (its stack trace, derived error type
and message), and retains the previous case's description, external URL and
step data. -/
theorem c10_stale_fields_carry_over (env : IterEnv) (s : IterState)
    (tc1 tc2 : CaseResult)
    (h1 : tc1.errorStackTrace ≠ ([] : JStr) ∨ tc1.errorDetails ≠ ([] : JStr))
    (h2s : tc2.errorStackTrace = ([] : JStr))
    (h2d : tc2.errorDetails = ([] : JStr))
    (h2o : tc2.stdout = ([] : JStr)) (h2k : tc2.skipped = false)
    (h2r : findRun s.runResultsFilesMap tc2.runId = none) :
    (processTestCase env (processTestCase env s tc1).1 tc2).2.status =
      str "Passed"
  ∧ (processTestCase env (processTestCase env s tc1).1 tc2).2.testError =
      some ⟨tc1.errorStackTrace, (processTestCase env s tc1).1.errorType,
        tc1.errorDetails⟩
  ∧ (processTestCase env (processTestCase env s tc1).1 tc2).2.description =
      (processTestCase env s tc1).1.description
  ∧ (processTestCase env (processTestCase env s tc1).1 tc2).2.externalURL =
      (processTestCase env s tc1).1.externalURL
  ∧ (processTestCase env (processTestCase env s tc1).1 tc2).2.resultData =
      (processTestCase env s tc1).1.resultData := by
  have hs1st : (processTestCase env s tc1).1.stackTraceStr =
      tc1.errorStackTrace := by
    unfold processTestCase; dsimp only; rw [if_pos h1]
  have hs1em : (processTestCase env s tc1).1.errorMsg = tc1.errorDetails := by
    unfold processTestCase; dsimp only; rw [if_pos h1]
  have h2 := processTestCase_clean env (processTestCase env s tc1).1 tc2
    h2s h2d h2o h2k h2r
  rw [h2]
  refine ⟨rfl, ?_, rfl, rfl, rfl⟩
  dsimp only
  rw [hs1st, hs1em, if_pos h1]

/-- Witness for C10 at the concrete staleness scenario: the clean second case
comes out `Passed` with the first case's error record, description `D` and
step data `["s1"]`. -/
theorem c10_witness :
    (processTestCase envIterC7 (processTestCase envIterC7
        (initIterState 0 [(1, str "f1")]) tcC10a).1 tcC7b).2.status =
      str "Passed"
  ∧ (processTestCase envIterC7 (processTestCase envIterC7
        (initIterState 0 [(1, str "f1")]) tcC10a).1 tcC7b).2.testError =
      some ⟨str "E\n at x", str "E\n ", str ""⟩
  ∧ (processTestCase envIterC7 (processTestCase envIterC7
        (initIterState 0 [(1, str "f1")]) tcC10a).1 tcC7b).2.description =
      str "D"
  ∧ (processTestCase envIterC7 (processTestCase envIterC7
        (initIterState 0 [(1, str "f1")]) tcC10a).1 tcC7b).2.resultData =
      [str "s1"] := by
  have h := c10_stale_fields_carry_over envIterC7
    (initIterState 0 [(1, str "f1")]) tcC10a tcC7b (Or.inl (by decide))
    rfl rfl rfl rfl rfl
  exact ⟨h.1, h.2.1.trans rfl, h.2.2.1.trans rfl, h.2.2.2.2.trans rfl⟩

end FtMbt
